import Mathlib

/-!
Verification of `advanced_alchemy/exceptions.py`: the exception-normalization
subsystem (`wrap_sqlalchemy_exception`, `_get_error_message`, and the three
dialect-keyed regex tables `DUPLICATE_KEY_REGEXES`, `FOREIGN_KEY_REGEXES`,
`CHECK_CONSTRAINT_REGEXES`).

The Python regexes are embedded as abstract-syntax trees (`Re`) together with a
fuel-based backtracking matcher implementing the semantics of Python `re`
without the MULTILINE / DOTALL flags:
  - `.` matches any character except a newline;
  - `^` matches only at the start of the string;
  - `$` matches at the end of the string, or just before a newline that is the
    last character of the string;
  - a backslash-b matches at a word boundary (a word character is an ASCII
    alphanumeric character or an underscore);
  - classes, alternation, option, star and plus are standard.
Capture groups are erased: the classifier's per-regex condition
`(match := regex.findall(detail)) and match[0]` is, for every regex appearing
in the three tables, equivalent to "the regex matches somewhere in `detail`",
because every such regex has either two or more capture groups (so `match[0]`
is a non-empty tuple whenever a match exists), or a single capture group
quantified with `+` over a non-empty class (so the captured text is non-empty
whenever a match exists), or no capture group at all while containing a
mandatory non-empty literal (so the full-match text `match[0]` is non-empty
whenever a match exists).  `reSearch` below is therefore the faithful
embedding of that condition.
-/

/-- Regex abstract syntax: empty word, character class, concatenation,
alternation, Kleene star, start anchor, end anchor, word boundary. -/
inductive Re where
  | eps : Re
  | cls : (Char → Bool) → Re
  | seq : Re → Re → Re
  | alt : Re → Re → Re
  | star : Re → Re
  | bos : Re
  | eos : Re
  | wordB : Re

/-- Literal character. -/
def rchar (c : Char) : Re := .cls (fun d => d == c)

/-- The dot metacharacter: any character except a newline. -/
def rdot : Re := .cls (fun d => !(d == '\n'))

/-- Literal string (concatenation of its characters). -/
def rstr (s : String) : Re := s.data.foldr (fun c r => .seq (rchar c) r) .eps

/-- Concatenation of a list of regexes. -/
def rseq (l : List Re) : Re := l.foldr .seq .eps

/-- One-or-more quantifier. -/
def rplus (r : Re) : Re := .seq r (.star r)

/-- Zero-or-one quantifier. -/
def ropt (r : Re) : Re := .alt r .eps

/-- Python whitespace class: space, tab, newline, carriage return, vertical
tab, form feed. -/
def pySpace (c : Char) : Bool :=
  c == ' ' || c == '\t' || c == '\n' || c == '\r' || c == Char.ofNat 11 || c == Char.ofNat 12

/-- The whitespace class metacharacter. -/
def rws : Re := .cls pySpace

/-- Python word character (ASCII range): alphanumeric or underscore. -/
def pyWord (c : Char) : Bool := c.isAlphanum || c == '_'

/-- Word-character test for the character preceding the current position
(`none` at the start of the string). -/
def isWordOpt : Option Char → Bool
  | none => false
  | some c => pyWord c

/-- Word-character test for the character at the current position. -/
def isWordHead : List Char → Bool
  | [] => false
  | c :: _ => pyWord c

/-- Backtracking matcher in continuation-passing style.  `prev` is the
character immediately before the current position (`none` at the start of the
string), `cs` the remaining input, and `k` the continuation run on every way
the regex can match a prefix of `cs`.  `fuel` bounds the recursion depth; the
star case only iterates after strict consumption, so any fuel at least
`(size of the regex + 2) * (length of the input + 2)` is sufficient. -/
def reMatch : Nat → Re → Option Char → List Char → (Option Char → List Char → Bool) → Bool
  | 0, _, _, _, _ => false
  | Nat.succ fuel, r, prev, cs, k =>
    match r with
    | .eps => k prev cs
    | .cls p =>
      match cs with
      | [] => false
      | c :: rest => p c && k (some c) rest
    | .seq a b => reMatch fuel a prev cs (fun p2 cs2 => reMatch fuel b p2 cs2 k)
    | .alt a b => reMatch fuel a prev cs k || reMatch fuel b prev cs k
    | .star a =>
      k prev cs ||
        reMatch fuel a prev cs (fun p2 cs2 =>
          if cs2.length < cs.length then reMatch fuel (.star a) p2 cs2 k else false)
    | .bos => prev.isNone && k prev cs
    | .eos =>
      (match cs with
        | [] => true
        | [c] => c == '\n'
        | _ => false) && k prev cs
    | .wordB => (isWordOpt prev != isWordHead cs) && k prev cs

/-- Number of nodes of a regex, used to compute a sufficient fuel. -/
def reSize : Re → Nat
  | .eps => 1
  | .cls _ => 1
  | .seq a b => reSize a + reSize b + 1
  | .alt a b => reSize a + reSize b + 1
  | .star a => reSize a + 1
  | .bos => 1
  | .eos => 1
  | .wordB => 1

/-- Try to match `r` at the current position or at any later position
(Python `re.search` / non-empty `re.findall`). -/
def searchAux (fuel : Nat) (r : Re) (prev : Option Char) (cs : List Char) : Bool :=
  reMatch fuel r prev cs (fun _ _ => true) ||
    match cs with
    | [] => false
    | c :: rest => searchAux fuel r (some c) rest

/-- A compiled pattern: the regex together with its IGNORECASE flag
(the only flag used in the source tables, via an inline `(?i)`). -/
structure CompiledRe where
  pattern : Re
  ignoreCase : Bool

/-- Compiled pattern without flags. -/
def rePlain (r : Re) : CompiledRe := ⟨r, false⟩

/-- Does the compiled pattern match somewhere in `s`?  For the IGNORECASE
patterns the input is lowercased and the pattern is written in lowercase. -/
def reSearch (cr : CompiledRe) (s : String) : Bool :=
  let cs := (if cr.ignoreCase then s.toLower else s).data
  searchAux ((reSize cr.pattern + 2) * (cs.length + 2)) cr.pattern none cs

/-- Apostrophe character, appearing in the MySQL duplicate-key patterns. -/
def qchar : Char := Char.ofNat 39

/-- Backtick character, appearing in the MySQL foreign-key pattern classes. -/
def btick : Char := Char.ofNat 96

/-- Negated class: any character other than a double quote. -/
def notDQuote : Re := .cls (fun c => !(c == '"'))

/-- Negated class: any character other than a closing parenthesis. -/
def notRParen : Re := .cls (fun c => !(c == ')'))

/-- Negated class: any character other than an apostrophe. -/
def notQChar : Re := .cls (fun c => !(c == qchar))

/-- Class of a backtick or a double quote. -/
def btickOrDQuote : Re := .cls (fun c => c == btick || c == '"')

/-- PostgreSQL duplicate-key pattern 1:
`^.*duplicate\s+key.*\"(?P<columns>[^\"]+)\"\s*\n.*Key\s+\((?P<key>.*)\)=\((?P<value>.*)\)\s+already\s+exists.*$` -/
def pgDup1 : CompiledRe := rePlain (rseq
  [.bos, .star rdot, rstr "duplicate", rplus rws, rstr "key", .star rdot,
   rchar '"', rplus notDQuote, rchar '"', .star rws, rchar '\n', .star rdot,
   rstr "Key", rplus rws, rchar '(', .star rdot, rstr ")=(", .star rdot, rchar ')',
   rplus rws, rstr "already", rplus rws, rstr "exists", .star rdot, .eos])

/-- PostgreSQL duplicate-key pattern 2:
`^.*duplicate\s+key.*\"(?P<columns>[^\"]+)\"\s*\n.*$` -/
def pgDup2 : CompiledRe := rePlain (rseq
  [.bos, .star rdot, rstr "duplicate", rplus rws, rstr "key", .star rdot,
   rchar '"', rplus notDQuote, rchar '"', .star rws, rchar '\n', .star rdot, .eos])

/-- SQLite duplicate-key pattern 1:
`^.*columns?(?P<columns>[^)]+)(is|are)\s+not\s+unique$` -/
def sqliteDup1 : CompiledRe := rePlain (rseq
  [.bos, .star rdot, rstr "column", ropt (rchar 's'), rplus notRParen,
   .alt (rstr "is") (rstr "are"), rplus rws, rstr "not", rplus rws, rstr "unique", .eos])

/-- SQLite duplicate-key pattern 2:
`^.*UNIQUE\s+constraint\s+failed:\s+(?P<columns>.+)$` -/
def sqliteDup2 : CompiledRe := rePlain (rseq
  [.bos, .star rdot, rstr "UNIQUE", rplus rws, rstr "constraint", rplus rws,
   rstr "failed:", rplus rws, rplus rdot, .eos])

/-- SQLite duplicate-key pattern 3:
`^.*PRIMARY\s+KEY\s+must\s+be\s+unique.*$` -/
def sqliteDup3 : CompiledRe := rePlain (rseq
  [.bos, .star rdot, rstr "PRIMARY", rplus rws, rstr "KEY", rplus rws, rstr "must",
   rplus rws, rstr "be", rplus rws, rstr "unique", .star rdot, .eos])

/-- MySQL duplicate-key pattern 1 (the apostrophes are written via `qchar`):
`^.*\b1062\b.*Duplicate entry '(?P<value>.*)' for key '(?P<columns>[^']+)'.*$` -/
def mysqlDup1 : CompiledRe := rePlain (rseq
  [.bos, .star rdot, .wordB, rstr "1062", .wordB, .star rdot,
   rstr "Duplicate entry ", rchar qchar, .star rdot, rchar qchar,
   rstr " for key ", rchar qchar, rplus notQChar, rchar qchar, .star rdot, .eos])

/-- MySQL duplicate-key pattern 2 (a raw-string `\\` denotes one literal
backslash before each apostrophe):
`^.*\b1062\b.*Duplicate entry \\'(?P<value>.*)\\' for key \\'(?P<columns>.+)\\'.*$` -/
def mysqlDup2 : CompiledRe := rePlain (rseq
  [.bos, .star rdot, .wordB, rstr "1062", .wordB, .star rdot,
   rstr "Duplicate entry ", rchar '\\', rchar qchar, .star rdot, rchar '\\', rchar qchar,
   rstr " for key ", rchar '\\', rchar qchar, rplus rdot, rchar '\\', rchar qchar,
   .star rdot, .eos])

/-- PostgreSQL foreign-key pattern:
`.*on table \"(?P<table>[^\"]+)\" violates foreign key constraint \"(?P<constraint>[^\"]+)\".*\nDETAIL:  Key \((?P<key>.+)\)=\(.+\) is (not present in|still referenced from) table \"(?P<key_table>[^\"]+)\".` -/
def pgFk1 : CompiledRe := rePlain (rseq
  [.star rdot, rstr "on table ", rchar '"', rplus notDQuote, rchar '"',
   rstr " violates foreign key constraint ", rchar '"', rplus notDQuote, rchar '"',
   .star rdot, rchar '\n', rstr "DETAIL:  Key (", rplus rdot, rstr ")=(", rplus rdot,
   rstr ") is ", .alt (rstr "not present in") (rstr "still referenced from"),
   rstr " table ", rchar '"', rplus notDQuote, rchar '"', rdot])

/-- SQLite foreign-key pattern, IGNORECASE:
`(?i).*foreign key constraint failed` -/
def sqliteFk1 : CompiledRe :=
  ⟨rseq [.star rdot, rstr "foreign key constraint failed"], true⟩

/-- MySQL foreign-key pattern (each class of a backtick or double quote is
written via `btickOrDQuote`):
`.*Cannot (add|delete) or update a (child|parent) row: a foreign key constraint fails \([`"].+[`"]\.[`"](?P<table>.+)[`"], CONSTRAINT [`"](?P<constraint>.+)[`"] FOREIGN KEY \([`"](?P<key>.+)[`"]\) REFERENCES [`"](?P<key_table>.+)[`"] ` -/
def mysqlFk1 : CompiledRe := rePlain (rseq
  [.star rdot, rstr "Cannot ", .alt (rstr "add") (rstr "delete"),
   rstr " or update a ", .alt (rstr "child") (rstr "parent"),
   rstr " row: a foreign key constraint fails (", btickOrDQuote, rplus rdot,
   btickOrDQuote, rchar '.', btickOrDQuote, rplus rdot, btickOrDQuote,
   rstr ", CONSTRAINT ", btickOrDQuote, rplus rdot, btickOrDQuote,
   rstr " FOREIGN KEY (", btickOrDQuote, rplus rdot, btickOrDQuote,
   rstr ") REFERENCES ", btickOrDQuote, rplus rdot, btickOrDQuote, rchar ' '])

/-- PostgreSQL check-constraint pattern:
`.*new row for relation \"(?P<table>.+)\" violates check constraint (?P<check_name>.+)` -/
def pgCheck1 : CompiledRe := rePlain (rseq
  [.star rdot, rstr "new row for relation ", rchar '"', rplus rdot,
   rstr "\" violates check constraint ", rplus rdot])

/-- Table `DUPLICATE_KEY_REGEXES` from the source: dialect name to ordered
pattern list. -/
def DUPLICATE_KEY_REGEXES : List (String × List CompiledRe) :=
  [("postgresql", [pgDup1, pgDup2]),
   ("sqlite", [sqliteDup1, sqliteDup2, sqliteDup3]),
   ("mysql", [mysqlDup1, mysqlDup2]),
   ("oracle", []),
   ("spanner+spanner", []),
   ("duckdb", []),
   ("mssql", []),
   ("bigquery", []),
   ("cockroach", [])]

/-- Table `FOREIGN_KEY_REGEXES` from the source. -/
def FOREIGN_KEY_REGEXES : List (String × List CompiledRe) :=
  [("postgresql", [pgFk1]),
   ("sqlite", [sqliteFk1]),
   ("mysql", [mysqlFk1]),
   ("oracle", []),
   ("spanner+spanner", []),
   ("duckdb", []),
   ("mssql", []),
   ("bigquery", []),
   ("cockroach", [])]

/-- Table `CHECK_CONSTRAINT_REGEXES` from the source. -/
def CHECK_CONSTRAINT_REGEXES : List (String × List CompiledRe) :=
  [("postgresql", [pgCheck1]),
   ("sqlite", []),
   ("mysql", []),
   ("oracle", []),
   ("spanner+spanner", []),
   ("duckdb", []),
   ("mssql", []),
   ("bigquery", []),
   ("cockroach", [])]

/-- Dictionary lookup with an empty-list default, mirroring
`TABLE.get(dialect_name, [])`. -/
def tableGet (t : List (String × List CompiledRe)) (dn : String) : List CompiledRe :=
  match t.find? (fun p => p.1 == dn) with
  | some p => p.2
  | none => []

/-- The caught exception, by the most specific class recognized by the
ordered `except` clauses of `wrap_sqlalchemy_exception` (the clauses are
ordered so that every subclass precedes its superclasses, so the dynamic
class alone determines the clause taken).  Each constructor carries the data
the handler reads: `origArgs` models the string renderings of
`exc.orig.args` for an integrity error, `origDetail` models
`getattr(exc.orig, "detail", ...)` for a statement error (`none` when the
attribute is missing), and the final `String` of every constructor is the
rendering `str(exc)` of the exception.  `uncaught` stands for any exception
matching none of the `except` clauses. -/
inductive SAExc where
  | notFound (render : String)
  | multipleResultsFound (render : String)
  | integrityError (origArgs : List String) (render : String)
  | invalidRequest (render : String)
  | statementError (origDetail : Option String) (render : String)
  | sqlalchemyError (render : String)
  | attributeError (render : String)
  | uncaught (render : String)
deriving DecidableEq

/-- Rendering `str(exc)` of the caught exception. -/
def strExc : SAExc → String
  | .notFound r => r
  | .multipleResultsFound r => r
  | .integrityError _ r => r
  | .invalidRequest r => r
  | .statementError _ r => r
  | .sqlalchemyError r => r
  | .attributeError r => r
  | .uncaught r => r

/-- A value of the `ErrorMessages` typed dictionary: either a literal string
or a single-argument function of the causing exception. -/
inductive MsgSource where
  | text (s : String)
  | fn (f : SAExc → String)

/-- The `ErrorMessages` typed dictionary: every key optional. -/
structure ErrorMessages where
  duplicate_key : Option MsgSource
  integrity : Option MsgSource
  foreign_key : Option MsgSource
  multiple_rows : Option MsgSource
  check_constraint : Option MsgSource
  other : Option MsgSource
  not_found : Option MsgSource

/-- The empty override table. -/
def emEmpty : ErrorMessages := ⟨none, none, none, none, none, none, none⟩

/-- Dictionary lookup `error_messages.get(key)` on the typed dictionary,
returning `none` for an absent key. -/
def emGet (em : ErrorMessages) (key : String) : Option MsgSource :=
  if key == "duplicate_key" then em.duplicate_key
  else if key == "integrity" then em.integrity
  else if key == "foreign_key" then em.foreign_key
  else if key == "multiple_rows" then em.multiple_rows
  else if key == "check_constraint" then em.check_constraint
  else if key == "other" then em.other
  else if key == "not_found" then em.not_found
  else none

/-- Embedding of `_get_error_message`: look the key up with the default
`f"{key} error: {exc}"`; if the value is callable, call it on the exception,
else return the string itself. -/
def _get_error_message (error_messages : ErrorMessages) (key : String) (exc : SAExc) : String :=
  match emGet error_messages key with
  | none => key ++ " error: " ++ strExc exc
  | some (.text s) => s
  | some (.fn f) => f exc

/-- The normalized exception classes the handler can raise. -/
inductive NormalizedKind where
  | notFoundError
  | multipleResultsFoundError
  | integrityError
  | duplicateKeyError
  | foreignKeyError
  | invalidRequestError
  | repositoryError
deriving DecidableEq

/-- Outcome of the wrapping context manager on a given escaping exception:
either the original exception is re-raised unchanged, or a normalized error
of kind `kind` with message `detail` is raised with `cause` as its chained
cause (a `raise ... from cause`). -/
inductive WrapResult where
  | reraise
  | raised (kind : NormalizedKind) (detail : String) (cause : SAExc)
deriving DecidableEq

/-- The joined driver message: `" - ".join(str(a) for a in exc.orig.args)
if exc.orig.args else ""`. -/
def joinedDetail (origArgs : List String) : String :=
  if origArgs.isEmpty then "" else String.intercalate " - " origArgs

/-- Python truthiness of the per-regex test
`(match := regex.findall(detail)) and match[0]` over an ordered pattern list:
true when some pattern in the list matches (see the header comment for why
the first-element truthiness is equivalent to match existence for every
pattern of the tables).  `List.any` short-circuits at the first matching
pattern, mirroring the `raise` that ends the inner loop. -/
def anyRegexMatch (regexes : List CompiledRe) (detail : String) : Bool :=
  regexes.any (fun r => reSearch r detail)

/-- The `for key, (regexes, exception) in keys_to_regex.items()` loop: the
first category (in insertion order) one of whose patterns matches wins; the
loop is exited by `raise` at the first success, so later patterns and later
categories are never consulted. -/
def matchKeys : List (String × List CompiledRe × NormalizedKind) → String →
    Option (String × NormalizedKind)
  | [], _ => none
  | (key, regexes, kind) :: rest, detail =>
    if anyRegexMatch regexes detail then some (key, kind) else matchKeys rest detail

/-- The `keys_to_regex` dictionary, in insertion order. -/
def keysToRegex (dn : String) : List (String × List CompiledRe × NormalizedKind) :=
  [("duplicate_key", tableGet DUPLICATE_KEY_REGEXES dn, .duplicateKeyError),
   ("check_constraint", tableGet CHECK_CONSTRAINT_REGEXES dn, .integrityError),
   ("foreign_key", tableGet FOREIGN_KEY_REGEXES dn, .foreignKeyError)]

/-- Embedding of `wrap_sqlalchemy_exception`, as a function of the exception
escaping the wrapped scope.  Each branch mirrors the corresponding `except`
clause of the source in order. -/
def wrap_sqlalchemy_exception (error_messages : Option ErrorMessages)
    (dialect_name : Option String) (wrap_exceptions : Bool) (exc : SAExc) : WrapResult :=
  match exc with
  | .notFound _ =>
    if wrap_exceptions = false then .reraise
    else
      match error_messages with
      | some em => .raised .notFoundError (_get_error_message em "not_found" exc) exc
      | none => .raised .notFoundError "No rows matched the specified data" exc
  | .multipleResultsFound _ =>
    if wrap_exceptions = false then .reraise
    else
      match error_messages with
      | some em => .raised .multipleResultsFoundError (_get_error_message em "multiple_rows" exc) exc
      | none => .raised .multipleResultsFoundError "Multiple rows matched the specified data" exc
  | .integrityError origArgs render =>
    if wrap_exceptions = false then .reraise
    else
      match error_messages, dialect_name with
      | some em, some dn =>
        match matchKeys (keysToRegex dn) (joinedDetail origArgs) with
        | some (key, kind) => .raised kind (_get_error_message em key exc) exc
        | none => .raised .integrityError (_get_error_message em "integrity" exc) exc
      | _, _ => .raised .integrityError ("An integrity error occurred: " ++ render) exc
  | .invalidRequest _ =>
    if wrap_exceptions = false then .reraise
    else .raised .invalidRequestError "An invalid request was made." exc
  | .statementError origDetail _ =>
    if wrap_exceptions = false then .reraise
    else
      match origDetail with
      | some d => .raised .integrityError d exc
      | none => .raised .integrityError "There was an issue processing the statement." exc
  | .sqlalchemyError render =>
    if wrap_exceptions = false then .reraise
    else
      match error_messages with
      | some em => .raised .repositoryError (_get_error_message em "other" exc) exc
      | none => .raised .repositoryError ("An exception occurred: " ++ render) exc
  | .attributeError render =>
    if wrap_exceptions = false then .reraise
    else
      match error_messages with
      | some em => .raised .repositoryError (_get_error_message em "other" exc) exc
      | none => .raised .repositoryError ("An attribute error occurred during processing: " ++ render) exc
  | .uncaught _ => .reraise

/-- Membership of a caught exception in one of the recognized categories
(every constructor but `uncaught` corresponds to an `except` clause). -/
def isRecognized : SAExc → Bool
  | .uncaught _ => false
  | _ => true

/-- C1: within integrity-violation classification (override table and dialect
name supplied, wrapping enabled), the categories are tested in the fixed order
duplicate_key, check_constraint, foreign_key; the first category one of whose
patterns matches determines the raised type (DuplicateKeyError, IntegrityError,
ForeignKeyError respectively) and later patterns and categories are not
consulted once a match succeeds. -/
theorem c1_integrity_category_order (em : ErrorMessages) (dn : String)
    (origArgs : List String) (r : String) :
    wrap_sqlalchemy_exception (some em) (some dn) true (.integrityError origArgs r) =
      (if anyRegexMatch (tableGet DUPLICATE_KEY_REGEXES dn) (joinedDetail origArgs) then
        .raised .duplicateKeyError
          (_get_error_message em "duplicate_key" (.integrityError origArgs r))
          (.integrityError origArgs r)
      else if anyRegexMatch (tableGet CHECK_CONSTRAINT_REGEXES dn) (joinedDetail origArgs) then
        .raised .integrityError
          (_get_error_message em "check_constraint" (.integrityError origArgs r))
          (.integrityError origArgs r)
      else if anyRegexMatch (tableGet FOREIGN_KEY_REGEXES dn) (joinedDetail origArgs) then
        .raised .foreignKeyError
          (_get_error_message em "foreign_key" (.integrityError origArgs r))
          (.integrityError origArgs r)
      else
        .raised .integrityError
          (_get_error_message em "integrity" (.integrityError origArgs r))
          (.integrityError origArgs r)) := by
  by_cases h1 : anyRegexMatch (tableGet DUPLICATE_KEY_REGEXES dn) (joinedDetail origArgs) <;>
    by_cases h2 : anyRegexMatch (tableGet CHECK_CONSTRAINT_REGEXES dn) (joinedDetail origArgs) <;>
      by_cases h3 : anyRegexMatch (tableGet FOREIGN_KEY_REGEXES dn) (joinedDetail origArgs) <;>
        simp [wrap_sqlalchemy_exception, keysToRegex, matchKeys, h1, h2, h3]

/-- C2: a caught not-found or multiple-results condition is mapped directly to
NotFoundError / MultipleResultsFoundError for every dialect name and override
table (including absent ones), with no dependence on the regex tables: the
outcome is independent of the dialect name. -/
theorem c2_structural_not_found_multiple_rows (em : Option ErrorMessages)
    (dn dn2 : Option String) (r : String) :
    (wrap_sqlalchemy_exception em dn true (.notFound r) =
      .raised .notFoundError
        (match em with
          | some e => _get_error_message e "not_found" (.notFound r)
          | none => "No rows matched the specified data")
        (.notFound r)) ∧
    (wrap_sqlalchemy_exception em dn true (.multipleResultsFound r) =
      .raised .multipleResultsFoundError
        (match em with
          | some e => _get_error_message e "multiple_rows" (.multipleResultsFound r)
          | none => "Multiple rows matched the specified data")
        (.multipleResultsFound r)) ∧
    wrap_sqlalchemy_exception em dn true (.notFound r) =
      wrap_sqlalchemy_exception em dn2 true (.notFound r) ∧
    wrap_sqlalchemy_exception em dn true (.multipleResultsFound r) =
      wrap_sqlalchemy_exception em dn2 true (.multipleResultsFound r) := by
  cases em <;> simp [wrap_sqlalchemy_exception]

/-- C3 counterexample: with dialect "sqlite", wrapping enabled and driver
message exactly "UNIQUE constraint failed: author.name", but no override
table supplied, the code raises the generic IntegrityError, not
DuplicateKeyError — the claim omits the override-table precondition. -/
theorem c3_counterexample :
    wrap_sqlalchemy_exception none (some "sqlite") true
      (.integrityError ["UNIQUE constraint failed: author.name"] "orig") =
      .raised .integrityError "An integrity error occurred: orig"
        (.integrityError ["UNIQUE constraint failed: author.name"] "orig") ∧
    NormalizedKind.integrityError ≠ NormalizedKind.duplicateKeyError :=
  ⟨rfl, by decide⟩

/-- C3 amended: with dialect "sqlite", wrapping enabled AND an override table
supplied, an integrity violation with driver message exactly
"UNIQUE constraint failed: author.name" raises DuplicateKeyError. -/
theorem c3_amended_sqlite_duplicate (em : ErrorMessages) (r : String) :
    wrap_sqlalchemy_exception (some em) (some "sqlite") true
      (.integrityError ["UNIQUE constraint failed: author.name"] r) =
      .raised .duplicateKeyError
        (_get_error_message em "duplicate_key"
          (.integrityError ["UNIQUE constraint failed: author.name"] r))
        (.integrityError ["UNIQUE constraint failed: author.name"] r) := by
  have h : matchKeys (keysToRegex "sqlite")
      (joinedDetail ["UNIQUE constraint failed: author.name"]) =
      some ("duplicate_key", NormalizedKind.duplicateKeyError) := by decide
  simp [wrap_sqlalchemy_exception, h]

/-- C4: a caught integrity violation raises the generic IntegrityError — never
a specific subtype — when no pattern of any category matches the joined driver
message (detail: the resolved "integrity" override), or when the override
table or the dialect name is absent (detail: a default message embedding the
exception text). -/
theorem c4_generic_integrity_fallback (em : ErrorMessages) (dn : String)
    (origArgs : List String) (r : String)
    (emo : Option ErrorMessages) (dno : Option String) :
    (anyRegexMatch (tableGet DUPLICATE_KEY_REGEXES dn) (joinedDetail origArgs) = false →
      anyRegexMatch (tableGet CHECK_CONSTRAINT_REGEXES dn) (joinedDetail origArgs) = false →
      anyRegexMatch (tableGet FOREIGN_KEY_REGEXES dn) (joinedDetail origArgs) = false →
      wrap_sqlalchemy_exception (some em) (some dn) true (.integrityError origArgs r) =
        .raised .integrityError
          (_get_error_message em "integrity" (.integrityError origArgs r))
          (.integrityError origArgs r)) ∧
    (emo = none ∨ dno = none →
      wrap_sqlalchemy_exception emo dno true (.integrityError origArgs r) =
        .raised .integrityError ("An integrity error occurred: " ++ r)
          (.integrityError origArgs r)) := by
  constructor
  · intro h1 h2 h3
    simp [wrap_sqlalchemy_exception, keysToRegex, matchKeys, h1, h2, h3]
  · rintro (rfl | rfl)
    · simp [wrap_sqlalchemy_exception]
    · cases emo <;> simp [wrap_sqlalchemy_exception]

/-- C4 witness: concrete instances — dialect "mysql" with a non-matching
message and an empty override table, and the same message with no override
table. -/
theorem c4_generic_integrity_fallback_witness :
    (wrap_sqlalchemy_exception (some emEmpty) (some "mysql") true
        (.integrityError ["no matching pattern text"] "boom") =
      .raised .integrityError
        (_get_error_message emEmpty "integrity"
          (.integrityError ["no matching pattern text"] "boom"))
        (.integrityError ["no matching pattern text"] "boom")) ∧
    (wrap_sqlalchemy_exception none (some "mysql") true
        (.integrityError ["no matching pattern text"] "boom") =
      .raised .integrityError ("An integrity error occurred: " ++ "boom")
        (.integrityError ["no matching pattern text"] "boom")) :=
  ⟨(c4_generic_integrity_fallback emEmpty "mysql" ["no matching pattern text"] "boom"
      none (some "mysql")).1 (by decide) (by decide) (by decide),
   (c4_generic_integrity_fallback emEmpty "mysql" ["no matching pattern text"] "boom"
      none (some "mysql")).2 (Or.inl rfl)⟩

/-- C5: with wrap_exceptions set to false the original exception is re-raised
unchanged for every caught exception, whatever the override table and dialect
name. -/
theorem c5_wrap_disabled_reraises (em : Option ErrorMessages) (dn : Option String)
    (exc : SAExc) :
    wrap_sqlalchemy_exception em dn false exc = .reraise := by
  cases exc <;> simp [wrap_sqlalchemy_exception]

/-- Override table whose not_found entry is a function of the causing
exception. -/
def emFnNotFound : ErrorMessages :=
  ⟨none, none, none, none, none, none, some (.fn (fun e => "fn says: " ++ strExc e))⟩

/-- Override table whose not_found entry is the literal "custom missing". -/
def emCustomMissing : ErrorMessages :=
  ⟨none, none, none, none, none, none, some (.text "custom missing")⟩

/-- C6: when the override table is present and the value under the handled
key is a function, the function is called with exactly the caught exception
and its return value becomes the detail verbatim; in particular an override
table with not_found set to the literal "custom missing" makes a not-found
condition raise NotFoundError with detail exactly "custom missing". -/
theorem c6_override_function_verbatim :
    (∀ (em : ErrorMessages) (key : String) (exc : SAExc) (f : SAExc → String),
      emGet em key = some (.fn f) → _get_error_message em key exc = f exc) ∧
    (∀ (em : ErrorMessages) (dn : Option String) (f : SAExc → String) (r : String),
      em.not_found = some (.fn f) →
      wrap_sqlalchemy_exception (some em) dn true (.notFound r) =
        .raised .notFoundError (f (.notFound r)) (.notFound r)) ∧
    (∀ (em : ErrorMessages) (dn : Option String) (r : String),
      em.not_found = some (.text "custom missing") →
      wrap_sqlalchemy_exception (some em) dn true (.notFound r) =
        .raised .notFoundError "custom missing" (.notFound r)) := by
  refine ⟨?_, ?_, ?_⟩
  · intro em key exc f h
    simp [_get_error_message, h]
  · intro em dn f r h
    have hg : emGet em "not_found" = em.not_found := rfl
    simp [wrap_sqlalchemy_exception, _get_error_message, hg, h]
  · intro em dn r h
    have hg : emGet em "not_found" = em.not_found := rfl
    simp [wrap_sqlalchemy_exception, _get_error_message, hg, h]

/-- C6 witness: the function override and the literal override, evaluated at
a concrete not-found condition. -/
theorem c6_override_function_verbatim_witness :
    _get_error_message emFnNotFound "not_found" (.notFound "x") = "fn says: x" ∧
    wrap_sqlalchemy_exception (some emFnNotFound) none true (.notFound "x") =
      .raised .notFoundError "fn says: x" (.notFound "x") ∧
    wrap_sqlalchemy_exception (some emCustomMissing) none true (.notFound "x") =
      .raised .notFoundError "custom missing" (.notFound "x") :=
  ⟨c6_override_function_verbatim.1 emFnNotFound "not_found" (.notFound "x") _ rfl,
   c6_override_function_verbatim.2.1 emFnNotFound none _ "x" rfl,
   c6_override_function_verbatim.2.2 emCustomMissing none "x" rfl⟩

/-- C7: every normalized error raised by the handler is cause-chained to the
caught exception, and every recognized exception caught with wrapping enabled
yields exactly one normalized error (the handler is a function, and its
result on a recognized exception is a raised normalized error whose cause is
the original). -/
theorem c7_cause_chained_and_exactly_one (em : Option ErrorMessages)
    (dn : Option String) (w : Bool) (exc : SAExc) :
    (∀ kind detail cause,
      wrap_sqlalchemy_exception em dn w exc = .raised kind detail cause → cause = exc) ∧
    (isRecognized exc = true →
      ∃ kind detail, wrap_sqlalchemy_exception em dn true exc = .raised kind detail exc) := by
  constructor
  · intro kind detail cause h
    cases w <;> cases exc <;> cases em <;> cases dn <;>
      simp only [wrap_sqlalchemy_exception] at h <;>
      (try split at h) <;> (try split at h) <;> simp_all <;>
      (obtain ⟨-, rfl, rfl⟩ := h; rfl)
  · intro hrec
    cases exc with
    | notFound r => cases em <;> exact ⟨_, _, rfl⟩
    | multipleResultsFound r => cases em <;> exact ⟨_, _, rfl⟩
    | integrityError origArgs r =>
      cases em with
      | none => exact ⟨_, _, rfl⟩
      | some e =>
        cases dn with
        | none => exact ⟨_, _, rfl⟩
        | some d =>
          rcases hm : matchKeys (keysToRegex d) (joinedDetail origArgs) with _ | ⟨key, k⟩ <;>
            simp only [wrap_sqlalchemy_exception, hm] <;> exact ⟨_, _, rfl⟩
    | invalidRequest r => exact ⟨_, _, rfl⟩
    | statementError od r => cases od <;> exact ⟨_, _, rfl⟩
    | sqlalchemyError r => cases em <;> exact ⟨_, _, rfl⟩
    | attributeError r => cases em <;> exact ⟨_, _, rfl⟩
    | uncaught r => simp [isRecognized] at hrec

/-- C7 witness: a concrete generic database error with wrapping enabled is
turned into exactly one normalized error chained to its cause. -/
theorem c7_cause_chained_witness :
    (SAExc.sqlalchemyError "db down" : SAExc) = .sqlalchemyError "db down" ∧
    (∃ kind detail, wrap_sqlalchemy_exception none none true (.sqlalchemyError "db down") =
      .raised kind detail (.sqlalchemyError "db down")) :=
  ⟨(c7_cause_chained_and_exactly_one none none true (.sqlalchemyError "db down")).1
      .repositoryError "An exception occurred: db down" (.sqlalchemyError "db down") rfl,
   (c7_cause_chained_and_exactly_one none none true (.sqlalchemyError "db down")).2 rfl⟩

/-- C8: a caught invalid-request condition with wrapping enabled raises
InvalidRequestError with the fixed detail "An invalid request was made.",
whatever the override table and dialect name. -/
theorem c8_invalid_request_fixed_detail (em : Option ErrorMessages)
    (dn : Option String) (r : String) :
    wrap_sqlalchemy_exception em dn true (.invalidRequest r) =
      .raised .invalidRequestError "An invalid request was made." (.invalidRequest r) := rfl

/-- C9: any AttributeError escaping the wrapped scope with wrapping enabled is
converted to RepositoryError — it never propagates unchanged — with detail the
resolved "other" override when an override table is present, else the default
message embedding the exception text. -/
theorem c9_attribute_error_converted (em : Option ErrorMessages)
    (dn : Option String) (r : String) :
    (wrap_sqlalchemy_exception em dn true (.attributeError r) =
      .raised .repositoryError
        (match em with
          | some e => _get_error_message e "other" (.attributeError r)
          | none => "An attribute error occurred during processing: " ++ r)
        (.attributeError r)) ∧
    wrap_sqlalchemy_exception em dn true (.attributeError r) ≠ .reraise := by
  cases em <;> simp [wrap_sqlalchemy_exception]

/-- C10: a NotFoundError raised inside the scope with wrapping enabled is
replaced by a new NotFoundError whose detail is the resolved not_found
override when an override table is present, else exactly
"No rows matched the specified data"; the incoming rendering is not used in
the detail (the default case is constant in it) and the original survives as
the chained cause. -/
theorem c10_not_found_detail_replaced (dn : Option String) (r : String)
    (em : ErrorMessages) :
    wrap_sqlalchemy_exception none dn true (.notFound r) =
      .raised .notFoundError "No rows matched the specified data" (.notFound r) ∧
    wrap_sqlalchemy_exception (some em) dn true (.notFound r) =
      .raised .notFoundError (_get_error_message em "not_found" (.notFound r))
        (.notFound r) := ⟨rfl, rfl⟩
